import Mathlib

/-!
Shallow embedding of the C tracing engine in `src/coverage/tracer.c` (with the
`DataStack` operations shared with `src/coverage/ctracer/datastack.c`), and
proofs about it.

Modelling conventions:
* Python objects that serve only as identities (filenames, concurrency ids,
  plugins, frames, disposition objects) are modelled as `Nat` identifiers.
* A per-file data dictionary (`self->data[tracename]`) is modelled as a
  `List TKey` in insertion order; dictionary-key semantics are recovered by
  talking about list membership.  `cur_entry.file_data` is a borrowed pointer
  to one of those dictionaries; it is modelled by the filename key it was
  obtained under, which is stable because `self->data` entries are never
  replaced.
* External callbacks (`should_trace`, `check_include`, the concurrency id
  function, the file tracer's `dynamic_source_filename` and
  `line_number_range`, and `PyMem_Realloc` success) are oracles; their
  behaviour for one event is packaged in an `Env` value.
* C `int` arithmetic is modelled with `Int` (no overflow is relevant to the
  proved properties).
-/

namespace CoverageTracer

/-- Record keys written into a per-file data dictionary: a plain line number
when tracing lines, or an ordered pair when tracing arcs (mirrors
the keys produced by `PyDict_SetItem` in `CTracer_handle_line`,
`CTracer_handle_return`, `CTracer_check_missing_return`). -/
inductive TKey where
  | line (l : Int)
  | arc (a b : Int)
deriving DecidableEq

/-- A disposition object, as read by `CTracer_handle_call` through
`PyObject_GetAttrString`: fields `trace`, `source_filename`, `file_tracer`
(the owning plugin id, or `none` for `Py_None`), `has_dynamic_filename`. -/
@[ext]
structure Disposition where
  trace : Bool
  source_filename : Nat
  file_tracer : Option Nat
  has_dynamic_filename : Bool
deriving DecidableEq, Inhabited

/-- A value stored in `self->should_trace_cache`.  The C code stores
heterogeneous values in this one dictionary: disposition objects (cached
results of `should_trace`) and plain booleans (cached results of
`check_include` for dynamic filenames). -/
inductive CacheVal where
  | disp (d : Nat)
  | incl (b : Bool)
deriving DecidableEq

/-- `DataStackEntry` from tracer.c / datastack.h: per-frame saved state. -/
@[ext]
structure DataStackEntry where
  file_data : Option Nat
  disposition : Nat
  file_tracer : Option Nat
  last_line : Int
deriving DecidableEq, Inhabited

/-- `DataStack`: `depth` is the index of the last used entry (`-1` = empty),
`alloc` the number of allocated entries, `stack` the backing array (a total
function; indices at or above `alloc` model unallocated garbage that the C
code never reads). -/
@[ext]
structure DataStack where
  depth : Int
  alloc : Int
  stack : Nat → DataStackEntry

/-- A fresh `DataStack` as produced by `DataStack_init`. -/
def DataStack_new : DataStack := { depth := -1, alloc := 0, stack := fun _ => default }

/-- Which `DataStack` the pointer `self->pdata_stack` designates:
`&self->data_stack` or `&self->data_stacks[i]`. -/
inductive StackSel where
  | main
  | indexed (i : Nat)
deriving DecidableEq

/-- The slice of a `PyFrameObject` the tracer reads.  `fid` is the frame's
identity (C pointer equality); `f_code_yield_at_lasti` models whether the
bytecode at `f_lasti` is `YIELD_VALUE`. -/
@[ext]
structure Frame where
  fid : Nat
  f_back : Option Nat
  f_code_filename : Nat
  f_code_firstlineno : Int
  f_lineno : Int
  f_lasti : Int
  f_code_yield_at_lasti : Bool
deriving DecidableEq

/-- Outcome of calling the file tracer's `line_number_range`:
the call raises (`PyObject_CallMethod` returns NULL), returns something that
`CTracer_unpack_pair` rejects, or returns a well-formed pair of ints. -/
inductive RangeResult where
  | raises
  | badShape
  | returns (lo hi : Int)
deriving DecidableEq

/-- Outcome of calling the file tracer's `dynamic_source_filename`:
the call raises, or returns a filename / `Py_None`. -/
inductive DynResult where
  | raises
  | returns (fn : Option Nat)
deriving DecidableEq

/-- The behaviour of the external oracles during one traced event.
`concur_id = none` models `self->concur_id_func == Py_None` (no concurrency
function configured); `some c` models a configured function that would return
identity `c` if invoked.  `should_trace_disp = none` models `should_trace`
raising.  `alloc_ok` models whether `PyMem_Realloc` succeeds. -/
structure Env where
  concur_id : Option Nat
  alloc_ok : Bool
  should_trace_disp : Option Disposition
  dyn_filename : DynResult
  check_include : Bool
  range_result : RangeResult

/-- The `CTracer` object state.  `concur_calls` counts invocations of the
concurrency identity function (instrumentation for stating how often the
engine consults it; the C object has no such field but each
`PyObject_CallObject(self->concur_id_func, NULL)` is one increment).
`warn_log` records, in order, the plugin names passed to `self->warn`. -/
@[ext]
structure CTracer where
  tracing_arcs : Bool
  data : Nat → Option (List TKey)
  plugin_data : Nat → Option Nat
  should_trace_cache : Nat → Option CacheVal
  disps : Nat → Disposition
  next_disp : Nat
  plugin_enabled : Nat → Bool
  warn_log : List Nat
  data_stack : DataStack
  data_stack_index : Nat → Option Nat
  data_stacks : List DataStack
  data_stacks_used : Nat
  pdata_stack : StackSel
  cur_entry : DataStackEntry
  last_exc_back : Option Nat
  last_exc_firstlineno : Int
  concur_calls : Nat

/-- Pointwise update of a map modelled as a function (a `PyDict_SetItem`). -/
def upd {α : Type} (f : Nat → α) (k : Nat) (v : α) : Nat → α :=
  fun x => if x = k then v else f x

/-- `STACK_DELTA` from tracer.c / datastack.c. -/
def STACK_DELTA : Int := 100

/-- `DataStack_grow` (identical in tracer.c lines 174-192 and datastack.c
lines 24-42): increment `depth`; if it reached `alloc`, reallocate to
`alloc + STACK_DELTA`.  On allocation failure (`alloc_ok = false`) the C code
calls `PyErr_NoMemory()`, decrements `depth` back and returns `RET_ERROR`;
a failed `PyMem_Realloc` leaves the original block (the entries) intact. -/
def DataStack_grow (ds : DataStack) (alloc_ok : Bool) : DataStack × Bool :=
  let ds1 : DataStack := { ds with depth := ds.depth + 1 }
  if ds1.depth ≥ ds1.alloc then
    match alloc_ok with
    | true => ({ ds1 with alloc := ds1.alloc + STACK_DELTA }, true)
    | false => ({ ds1 with depth := ds1.depth - 1 }, false)
  else
    (ds1, true)

/-- Dereference `self->pdata_stack`. -/
def getStack (s : CTracer) : DataStack :=
  match s.pdata_stack with
  | .main => s.data_stack
  | .indexed i => s.data_stacks.getD i DataStack_new

/-- Write through `self->pdata_stack`. -/
def putStack (s : CTracer) (ds : DataStack) : CTracer :=
  match s.pdata_stack with
  | .main => { s with data_stack := ds }
  | .indexed i => { s with data_stacks := s.data_stacks.set i ds }

/-- `CTracer_set_pdata_stack` (tracer.c lines 338-399): if a concurrency
identity function is configured it is invoked afresh, the resulting identity
is looked up in `self->data_stack_index`, a new `DataStack` is created and
registered on a miss, and `self->pdata_stack` is pointed at the resolved
stack; with no function configured, `self->pdata_stack = &self->data_stack`.
(The realloc of the `data_stacks` array is modelled by list append and cannot
fail in the model; no proved property depends on that failure path.) -/
def CTracer_set_pdata_stack (s : CTracer) (concur_id : Option Nat) : CTracer :=
  match concur_id with
  | none => { s with pdata_stack := .main }
  | some c =>
    let s1 := { s with concur_calls := s.concur_calls + 1 }
    match s1.data_stack_index c with
    | some i => { s1 with pdata_stack := .indexed i }
    | none =>
      let i := s1.data_stacks_used
      { s1 with
          data_stack_index := upd s1.data_stack_index c (some i),
          data_stacks := s1.data_stacks ++ [DataStack_new],
          data_stacks_used := i + 1,
          pdata_stack := .indexed i }

/-- Insert a key into the dictionary `self->cur_entry.file_data` points at
(`PyDict_SetItem`; modelled as list append, membership gives the key set). -/
def CTracer_record_key (s : CTracer) (k : TKey) : CTracer :=
  match s.cur_entry.file_data with
  | none => s
  | some fd => { s with data := upd s.data fd (some ((s.data fd).getD [] ++ [k])) }

/-- `CTracer_record_pair` (tracer.c lines 313-335). -/
def CTracer_record_pair (s : CTracer) (l1 l2 : Int) : CTracer :=
  CTracer_record_key s (TKey.arc l1 l2)

/-- The recorded keys of one file's data dictionary. -/
def fileKeys (s : CTracer) (fn : Nat) : List TKey :=
  (s.data fn).getD []

/-- `CTracer_disable_plugin` (tracer.c lines 644-706): read the file tracer
from the disposition (`Py_None` means do nothing), warn once naming the
plugin, set the plugin's `_coverage_enabled` to `False`, and set the
disposition's `trace` to `False`. -/
def CTracer_disable_plugin (s : CTracer) (d : Nat) : CTracer :=
  match (s.disps d).file_tracer with
  | none => s
  | some p =>
    { s with
        warn_log := s.warn_log ++ [p],
        plugin_enabled := fun q => if q = p then false else s.plugin_enabled q,
        disps := upd s.disps d { s.disps d with trace := false } }

/-- The `last_line` assignment at the end of `CTracer_handle_call`, "other"
hunk of the unresolved merge conflict at tracer.c lines 617-626 (kept with
its comment: a call event can be a generator re-entry; `f_lasti` is `-1` for
a true call and a real byte offset for a re-entry). -/
def callLastLine (fr : Frame) : Int :=
  if fr.f_lasti < 0 then -1 else fr.f_lineno

/-- The `last_line` assignment of the "local" hunk of the same merge
conflict: `self->cur_entry.last_line = -1;` unconditionally. -/
def callLastLine_local (_fr : Frame) : Int := -1

/-- Tail of `CTracer_handle_call` from `if (tracename != Py_None)` (tracer.c
lines 577-626): fetch or create the per-file data dictionary (registering the
plugin name on first creation), fill in `cur_entry`, and apply the `last_line`
rule.  The `cur_entry.disposition` assignment is the "local" hunk of the
merge conflict at lines 617-626; it is kept in both variants because
`CTracer_handle_line` reads `cur_entry.disposition` (dropping it would leave
a stale field).  The `frame->f_trace = self` assignment is omitted: no
claim concerns it. -/
def CTracer_handle_call_finish (s : CTracer) (fr : Frame) (d : Nat)
    (ft : Option Nat) (tracename : Option Nat) (rule : Frame → Int) :
    CTracer × Bool :=
  match tracename with
  | some tn =>
    let s1 :=
      match s.data tn with
      | some _ => s
      | none =>
        let sA := { s with data := upd s.data tn (some []) }
        match ft with
        | some p => { sA with plugin_data := upd sA.plugin_data tn (some p) }
        | none => sA
    ({ s1 with
        cur_entry := { file_data := some tn, disposition := d, file_tracer := ft,
                       last_line := rule fr } }, true)
  | none =>
    ({ s with
        cur_entry := { file_data := none, disposition := d, file_tracer := none,
                       last_line := rule fr } }, true)

/-- Middle of `CTracer_handle_call` from the `disp_trace` test (tracer.c
lines 501-575): consult the disposition; for a dynamic filename invoke
`dynamic_source_filename` (a raise disables the plugin and the handler
returns OK), check the result against `check_include` with its result cached
in `should_trace_cache`, where any cached value other than `Py_True`
(including a cached disposition object) counts as not included. -/
def CTracer_handle_call_rest (s : CTracer) (env : Env) (fr : Frame) (d : Nat)
    (rule : Frame → Int) : CTracer × Bool :=
  let dispo := s.disps d
  match dispo.trace with
  | false => CTracer_handle_call_finish s fr d none none rule
  | true =>
    let ft := dispo.file_tracer
    match dispo.has_dynamic_filename with
    | false => CTracer_handle_call_finish s fr d ft (some dispo.source_filename) rule
    | true =>
      match env.dyn_filename with
      | .raises => (CTracer_disable_plugin s d, true)
      | .returns none => CTracer_handle_call_finish s fr d ft none rule
      | .returns (some tn) =>
        match s.should_trace_cache tn with
        | some (.incl true) => CTracer_handle_call_finish s fr d ft (some tn) rule
        | some (.incl false) => CTracer_handle_call_finish s fr d ft none rule
        | some (.disp _) => CTracer_handle_call_finish s fr d ft none rule
        | none =>
          let s1 := { s with
            should_trace_cache := upd s.should_trace_cache tn (some (.incl env.check_include)) }
          match env.check_include with
          | true => CTracer_handle_call_finish s1 fr d ft (some tn) rule
          | false => CTracer_handle_call_finish s1 fr d ft none rule

/-- `CTracer_handle_call` (tracer.c lines 447-641), parameterized by the
`last_line` rule (the two hunks of the merge conflict): resolve the active
stack, grow it and push the saved `cur_entry` (a grow failure aborts the
event with an error), then consult `should_trace_cache` / `should_trace`
(a raise from `should_trace` aborts the event; a cached non-disposition
value makes the `trace` attribute lookup raise). -/
def CTracer_handle_call_aux (s0 : CTracer) (env : Env) (fr : Frame)
    (rule : Frame → Int) : CTracer × Bool :=
  let s := CTracer_set_pdata_stack s0 env.concur_id
  let gr := DataStack_grow (getStack s) env.alloc_ok
  match gr.2 with
  | false => (putStack s gr.1, false)
  | true =>
    let ds := gr.1
    let ds1 := { ds with stack := fun j => if j = ds.depth.toNat then s.cur_entry else ds.stack j }
    let s1 := putStack s ds1
    match s1.should_trace_cache fr.f_code_filename with
    | some (.disp d) => CTracer_handle_call_rest s1 env fr d rule
    | some (.incl _) => (s1, false)
    | none =>
      match env.should_trace_disp with
      | none => (s1, false)
      | some dv =>
        let d := s1.next_disp
        let s2 := { s1 with
                      disps := upd s1.disps d dv,
                      next_disp := d + 1,
                      should_trace_cache := upd s1.should_trace_cache fr.f_code_filename (some (.disp d)) }
        CTracer_handle_call_rest s2 env fr d rule

/-- `CTracer_handle_call` with the merged resolution of the conflict at
tracer.c lines 617-626: the conditional `last_line` of the "other" hunk
(whose comment documents the generator re-entry behaviour) together with the
"local" hunk's `disposition` assignment. -/
def CTracer_handle_call (s : CTracer) (env : Env) (fr : Frame) : CTracer × Bool :=
  CTracer_handle_call_aux s env fr callLastLine

/-- `CTracer_handle_call` as it reads under the "local" hunk of the conflict:
`last_line` is set to `-1` unconditionally. -/
def CTracer_handle_call_local (s : CTracer) (env : Env) (fr : Frame) : CTracer × Bool :=
  CTracer_handle_call_aux s env fr callLastLine_local

/-- One iteration of the recording loop in `CTracer_handle_line` (tracer.c
lines 773-795): record an arc `(last_line, l)` when tracing arcs, or the
plain line `l` otherwise, then set `cur_entry.last_line = l`. -/
def recordOne (s : CTracer) (l : Int) : CTracer :=
  let s1 :=
    match s.tracing_arcs with
    | true => CTracer_record_pair s s.cur_entry.last_line l
    | false => CTracer_record_key s (TKey.line l)
  { s1 with cur_entry := { s1.cur_entry with last_line := l } }

/-- The loop `for (; lineno_from <= lineno_to; lineno_from++)` of
`CTracer_handle_line`, with the iteration count made explicit: `n` remaining
iterations starting at line `i`. -/
def recordLoop (s : CTracer) : Nat → Int → CTracer
  | 0, _ => s
  | n + 1, i => recordLoop (recordOne s i) n (i + 1)

/-- `CTracer_handle_line` (tracer.c lines 742-806): no-op on an empty stack
or an untraced frame; with a file tracer attached, `line_number_range` is
invoked — a raise propagates as an error (`goto error`), an unpackable result
disables the plugin and the handler returns OK; otherwise the range is the
frame's own line.  When the resolved `lineno_from` is not `-1`, every line of
the inclusive range is recorded by the loop.  Note this handler never calls
`CTracer_set_pdata_stack`. -/
def CTracer_handle_line (s : CTracer) (env : Env) (fr : Frame) : CTracer × Bool :=
  if (getStack s).depth ≥ 0 then
    match s.cur_entry.file_data with
    | none => (s, true)
    | some _ =>
      match s.cur_entry.file_tracer with
      | some _ =>
        match env.range_result with
        | .raises => (s, false)
        | .badShape => (CTracer_disable_plugin s s.cur_entry.disposition, true)
        | .returns lo hi =>
          if lo ≠ -1 then (recordLoop s (hi + 1 - lo).toNat lo, true)
          else (s, true)
      | none =>
        let l := fr.f_lineno
        if l ≠ -1 then (recordLoop s (l + 1 - l).toNat l, true)
        else (s, true)
  else
    (s, true)

/-- `CTracer_handle_return` (tracer.c lines 808-840): resolve the active
stack; on a non-empty stack, when tracing arcs in a traced frame and the
bytecode at `f_lasti` is not `YIELD_VALUE`, record the exit arc
`(last_line, -co_firstlineno)`; then pop, restoring the caller's entry. -/
def CTracer_handle_return (s0 : CTracer) (env : Env) (fr : Frame) : CTracer × Bool :=
  let s := CTracer_set_pdata_stack s0 env.concur_id
  let ds := getStack s
  if ds.depth ≥ 0 then
    let sA :=
      match s.tracing_arcs, s.cur_entry.file_data with
      | true, some _ =>
        match fr.f_code_yield_at_lasti with
        | true => s
        | false => CTracer_record_pair s s.cur_entry.last_line (-fr.f_code_firstlineno)
      | _, _ => s
    let sB := { sA with cur_entry := ds.stack ds.depth.toNat }
    (putStack sB { ds with depth := ds.depth - 1 }, true)
  else
    (s, true)

/-- `CTracer_handle_exception` (tracer.c lines 842-864): remember the
frame's parent and first line to detect a suppressed return later. -/
def CTracer_handle_exception (s : CTracer) (fr : Frame) : CTracer × Bool :=
  ({ s with last_exc_back := fr.f_back,
            last_exc_firstlineno := fr.f_code_firstlineno }, true)

/-- `CTracer_check_missing_return` (tracer.c lines 405-445): if an exception
event was pending and the newly observed frame is the remembered parent,
perform the RETURN work here (resolve the stack; on a non-empty stack record
the exit arc using the remembered first line when tracing arcs in a traced
frame, and pop); in all cases where a pending exception existed, clear it. -/
def CTracer_check_missing_return (s : CTracer) (env : Env) (fr : Frame) : CTracer × Bool :=
  match s.last_exc_back with
  | none => (s, true)
  | some b =>
    if fr.fid = b then
      let s1 := CTracer_set_pdata_stack s env.concur_id
      let ds := getStack s1
      let s2 :=
        if ds.depth ≥ 0 then
          let sA :=
            match s1.tracing_arcs, s1.cur_entry.file_data with
            | true, some _ =>
              CTracer_record_pair s1 s1.cur_entry.last_line (-s1.last_exc_firstlineno)
            | _, _ => s1
          let sB := { sA with cur_entry := ds.stack ds.depth.toNat }
          putStack sB { ds with depth := ds.depth - 1 }
        else s1
      ({ s2 with last_exc_back := none }, true)
    else
      ({ s with last_exc_back := none }, true)

/-- The event kinds dispatched by `CTracer_trace` (`PyTrace_CALL`,
`PyTrace_EXCEPTION`, `PyTrace_LINE`, `PyTrace_RETURN`, anything else). -/
inductive What where
  | call
  | exc
  | line
  | ret
  | other
deriving DecidableEq

/-- `CTracer_trace` (tracer.c lines 869-937): run the missing-return check,
then dispatch on the event kind. -/
def CTracer_trace (s : CTracer) (env : Env) (fr : Frame) (what : What) : CTracer × Bool :=
  match CTracer_check_missing_return s env fr with
  | (s1, false) => (s1, false)
  | (s1, true) =>
    match what with
    | .call => CTracer_handle_call s1 env fr
    | .ret => CTracer_handle_return s1 env fr
    | .line => CTracer_handle_line s1 env fr
    | .exc => CTracer_handle_exception s1 fr
    | .other => (s1, true)

/-- `CTracer_call` (tracer.c lines 960-1016), after successful argument
parsing: save `frame->f_lineno`, overwrite it with the `lineno` keyword
argument when positive, invoke `CTracer_trace`, and restore `f_lineno`
before returning, on the success and the failure path alike.  Returns the
new tracer state, the frame as left behind, and the success flag. -/
def CTracer_call (s : CTracer) (env : Env) (fr : Frame) (what : What)
    (lineno : Int) : CTracer × Frame × Bool :=
  let orig_lineno := fr.f_lineno
  let fr1 := if lineno > 0 then { fr with f_lineno := lineno } else fr
  let r := CTracer_trace s env fr1 what
  (r.1, { fr1 with f_lineno := orig_lineno }, r.2)

/-- Run a list of events, all observed through the same oracle behaviour,
stopping at the first handler error (mirrors the host detaching on a trace
function error). -/
def runEvents (s : CTracer) (env : Env) : List (What × Frame) → CTracer × Bool
  | [] => (s, true)
  | (w, fr) :: rest =>
    match CTracer_trace s env fr w with
    | (s1, true) => runEvents s1 env rest
    | (s1, false) => (s1, false)

/-- The tracer state after `CTracer_init` and `CTracer_start`: empty caches,
empty default stack, `cur_entry.last_line = -1` (other `cur_entry` fields are
uninitialized in C and take the model defaults; they are written before first
being read). -/
def initTracer (arcs : Bool) : CTracer where
  tracing_arcs := arcs
  data := fun _ => none
  plugin_data := fun _ => none
  should_trace_cache := fun _ => none
  disps := fun _ => default
  next_disp := 0
  plugin_enabled := fun _ => true
  warn_log := []
  data_stack := DataStack_new
  data_stack_index := fun _ => none
  data_stacks := []
  data_stacks_used := 0
  pdata_stack := .main
  cur_entry := default
  last_exc_back := none
  last_exc_firstlineno := 0
  concur_calls := 0

/-- Oracle behaviour for a natively traced file `fn`: no concurrency
function, allocation succeeds, `should_trace` returns a disposition tracing
`fn` itself with no file tracer; the file-tracer oracles are never consulted. -/
def natEnv (fn : Nat) : Env where
  concur_id := none
  alloc_ok := true
  should_trace_disp := some
    { trace := true, source_filename := fn, file_tracer := none,
      has_dynamic_filename := false }
  dyn_filename := .raises
  check_include := false
  range_result := .raises

/-- A frame of the single function used in the straight-line scenarios. -/
def sFrame (fn : Nat) (first l lasti : Int) : Frame where
  fid := 0
  f_back := none
  f_code_filename := fn
  f_code_firstlineno := first
  f_lineno := l
  f_lasti := lasti
  f_code_yield_at_lasti := false

/-- The last element of a list, or a fallback: the value of
`cur_entry.last_line` after recording a sequence of lines. -/
def lastOr : List Int → Int → Int
  | [], d => d
  | x :: xs, _ => lastOr xs x

/-- Consecutive arcs: `consecArcs p [l1, l2, ...] = [(p,l1), (l1,l2), ...]`. -/
def consecArcs : Int → List Int → List TKey
  | _, [] => []
  | p, l :: ls => TKey.arc p l :: consecArcs l ls

/-- The event list of a straight-line function in file `fn` with body lines
`L`, executed once: a true call (at `f_lasti = -1`), one line event per line,
and a return (at a non-yield instruction). -/
def straightEvents (fn : Nat) (first : Int) (L : List Int) : List (What × Frame) :=
  (What.call, sFrame fn first first (-1)) ::
    (L.map fun l => (What.line, sFrame fn first l 0)) ++
    [(What.ret, sFrame fn first (lastOr L first) 20)]

/-- A concrete tracer state with one traced frame on the stack, whose
file tracer is plugin 3 and whose disposition is object 0. -/
def mappedState : CTracer :=
  { initTracer true with
      data := upd (fun _ => none) 0 (some []),
      disps := upd (fun _ => default) 0
        { trace := true, source_filename := 0, file_tracer := some 3,
          has_dynamic_filename := false },
      next_disp := 1,
      data_stack := { depth := 0, alloc := 100, stack := fun _ => default },
      cur_entry :=
        { file_data := some 0, disposition := 0, file_tracer := some 3,
          last_line := 5 } }

/-- The oracle behaviour of a line event whose `line_number_range` returns
the given well-formed pair. -/
def rangeEnv (lo hi : Int) : Env :=
  { natEnv 0 with range_result := .returns lo hi }

/-- The key recorded for one executed line: an arc from the previous line in
arc mode, the plain line otherwise. -/
def recKey : Bool → Int → Int → TKey
  | true, prev, l => TKey.arc prev l
  | false, _, l => TKey.line l

/-- The keys recorded by a run of line events: consecutive arcs from the
previous line in arc mode, plain lines otherwise. -/
def lineRecs : Bool → Int → List Int → List TKey
  | true, prev, L => consecArcs prev L
  | false, _, L => L.map TKey.line

/-- The disposition `should_trace` returns for a natively traced file. -/
def natDisp (fn : Nat) : Disposition where
  trace := true
  source_filename := fn
  file_tracer := none
  has_dynamic_filename := false

/-- The tracer state right after the opening call event of a straight-line
scenario: one entry pushed, the file's (empty) data dictionary created, the
disposition cached, `cur_entry` tracing file `fn` with `last_line = -1`. -/
def afterCallState (arcs : Bool) (fn : Nat) : CTracer where
  tracing_arcs := arcs
  data := upd (fun _ => none) fn (some [])
  plugin_data := fun _ => none
  should_trace_cache := upd (fun _ => none) fn (some (.disp 0))
  disps := upd (fun _ => default) 0 (natDisp fn)
  next_disp := 1
  plugin_enabled := fun _ => true
  warn_log := []
  data_stack :=
    { depth := 0, alloc := 100,
      stack := fun j => if j = 0 then (default : DataStackEntry) else default }
  data_stack_index := fun _ => none
  data_stacks := []
  data_stacks_used := 0
  pdata_stack := .main
  cur_entry := { file_data := some fn, disposition := 0, file_tracer := none, last_line := -1 }
  last_exc_back := none
  last_exc_firstlineno := 0
  concur_calls := 0

/-- The tracer state after the call event and the whole straight-line body
`L`: the file's data holds `lineRecs`, `last_line` is the last line of `L`. -/
def afterLinesState (arcs : Bool) (fn : Nat) (L : List Int) : CTracer :=
  { afterCallState arcs fn with
      data := upd (afterCallState arcs fn).data fn (some (lineRecs arcs (-1) L)),
      cur_entry := { (afterCallState arcs fn).cur_entry with last_line := lastOr L (-1) } }

/-- The list of lines the C loop visits: `chainList i n = [i, i+1, ..., i+n-1]`. -/
def chainList : Int → Nat → List Int
  | _, 0 => []
  | i, n + 1 => i :: chainList (i + 1) n

/-- The inclusive integer range `[lo, hi]` as a list, with the iteration
count of the C loop. -/
def intRange (lo hi : Int) : List Int :=
  chainList lo (hi + 1 - lo).toNat

/-- The recording step of the missing-return handler: the exit arc
`(last_line, -last_exc_firstlineno)` is recorded when arcs are being traced
and the unwound frame was traced. -/
def recMR (s : CTracer) : CTracer :=
  match s.tracing_arcs, s.cur_entry.file_data with
  | true, some _ => CTracer_record_pair s s.cur_entry.last_line (-s.last_exc_firstlineno)
  | _, _ => s

/-- A concrete tracer state carrying a pending exception: parent frame 1,
remembered first line 2, one traced entry on the stack. -/
def excState : CTracer :=
  { initTracer true with
      data := upd (fun _ => none) 0 (some []),
      data_stack := { depth := 0, alloc := 100, stack := fun _ => default },
      cur_entry := { file_data := some 0, disposition := 0, file_tracer := none, last_line := 10 },
      last_exc_back := some 1,
      last_exc_firstlineno := 2 }

/-- The frame observed after the exception: its identity matches the
remembered parent. -/
def excFrame : Frame :=
  { fid := 1, f_back := none, f_code_filename := 0, f_code_firstlineno := 4,
    f_lineno := 9, f_lasti := 0, f_code_yield_at_lasti := false }

/-- The pair of observables for stack resolution: how often the concurrency
identity function has been invoked, and which stack is active. -/
def resShape (s : CTracer) : Nat × StackSel :=
  (s.concur_calls, s.pdata_stack)

/-- Oracle behaviour with a concurrency identity function configured that
would return identity 7 if invoked. -/
def concEnv : Env :=
  { natEnv 0 with concur_id := some 7 }

/-- A concrete tracer state with one natively traced frame on the default
stack and no identity-function invocations so far. -/
def lineState : CTracer :=
  { initTracer false with
      data := upd (fun _ => none) 0 (some []),
      data_stack := { depth := 0, alloc := 100, stack := fun _ => default },
      cur_entry := { file_data := some 0, disposition := 0, file_tracer := none, last_line := -1 } }

/-- A concrete tracer state whose cache maps file 0 to a cached disposition
(object 0) owned by plugin 3 with a dynamic filename. -/
def dynState : CTracer :=
  { initTracer false with
      should_trace_cache := upd (fun _ => none) 0 (some (.disp 0)),
      disps := upd (fun _ => default) 0
        { trace := true, source_filename := 0, file_tracer := some 3,
          has_dynamic_filename := true },
      next_disp := 1 }

/-- Oracle behaviour whose `line_number_range` returns a value that is not a
pair of ints. -/
def badEnv : Env :=
  { natEnv 0 with range_result := .badShape }

@[simp] theorem upd_same {α : Type} (f : Nat → α) (k : Nat) (v : α) : upd f k v k = v := by
  simp [upd]

theorem upd_ne {α : Type} (f : Nat → α) (k x : Nat) (v : α) (h : x ≠ k) : upd f k v x = f x := by
  simp [upd, h]

/-! ## Infrastructure lemmas -/

theorem check_missing_return_of_none (s : CTracer) (env : Env) (fr : Frame)
    (h : s.last_exc_back = none) :
    CTracer_check_missing_return s env fr = (s, true) := by
  simp [CTracer_check_missing_return, h]

theorem trace_line_of_none (s : CTracer) (env : Env) (fr : Frame)
    (h : s.last_exc_back = none) :
    CTracer_trace s env fr .line = CTracer_handle_line s env fr := by
  simp [CTracer_trace, check_missing_return_of_none s env fr h]

theorem trace_call_of_none (s : CTracer) (env : Env) (fr : Frame)
    (h : s.last_exc_back = none) :
    CTracer_trace s env fr .call = CTracer_handle_call s env fr := by
  simp [CTracer_trace, check_missing_return_of_none s env fr h]

theorem trace_ret_of_none (s : CTracer) (env : Env) (fr : Frame)
    (h : s.last_exc_back = none) :
    CTracer_trace s env fr .ret = CTracer_handle_return s env fr := by
  simp [CTracer_trace, check_missing_return_of_none s env fr h]

theorem runEvents_append_of_ok (env : Env) (bs : List (What × Frame)) :
    ∀ (as : List (What × Frame)) (s s1 : CTracer),
      runEvents s env as = (s1, true) →
      runEvents s env (as ++ bs) = runEvents s1 env bs := by
  intro as
  induction as with
  | nil =>
    intro s s1 h
    simp [runEvents] at h
    simp [h]
  | cons e rest ih =>
    intro s s1 h
    obtain ⟨w, fr⟩ := e
    simp only [runEvents, List.cons_append] at h ⊢
    cases htr : CTracer_trace s env fr w with
    | mk s2 ok =>
      cases ok with
      | true =>
        rw [htr] at h
        exact ih s2 s1 h
      | false =>
        rw [htr] at h
        simp at h

/-! ## C9: push atomicity of the growable stack -/

/-- C9: for every push on a `DataStack` whose growth reallocation fails, the
operation reports an error and restores `depth` before reporting, leaving
`depth`, `alloc` and the stored entries all unchanged; on success,
`depth < alloc` holds afterward.  The hypothesis is the stack's standing
invariant (true of a fresh stack and preserved by every operation). -/
theorem C9_grow_failure_atomic (ds : DataStack) (hinv : ds.depth < ds.alloc) :
    (ds.depth + 1 ≥ ds.alloc → DataStack_grow ds false = (ds, false))
    ∧ (∀ b : Bool, (DataStack_grow ds b).2 = true →
        (DataStack_grow ds b).1.depth < (DataStack_grow ds b).1.alloc) := by
  have hSD : STACK_DELTA = 100 := rfl
  constructor
  · intro htrig
    unfold DataStack_grow
    rw [if_pos htrig]
    show ({ depth := ds.depth + 1 - 1, alloc := ds.alloc, stack := ds.stack }, false)
          = (ds, false)
    have h1 : ds.depth + 1 - 1 = ds.depth := by omega
    rw [h1]
  · intro b
    unfold DataStack_grow
    by_cases htrig : ds.depth + 1 ≥ ds.alloc
    · rw [if_pos htrig]
      cases b with
      | true =>
        intro _
        show ds.depth + 1 < ds.alloc + STACK_DELTA
        rw [hSD]
        omega
      | false =>
        intro h
        exact Bool.noConfusion h
    · rw [if_neg htrig]
      intro _
      show ds.depth + 1 < ds.alloc
      omega

theorem C9_grow_failure_atomic_witness :
    ((-1 : Int) + 1 ≥ (0 : Int)
      ∧ DataStack_grow DataStack_new false = (DataStack_new, false))
    ∧ ((DataStack_grow DataStack_new true).2 = true
      ∧ (DataStack_grow DataStack_new true).1.depth
          < (DataStack_grow DataStack_new true).1.alloc) :=
  ⟨⟨by decide, (C9_grow_failure_atomic DataStack_new (by decide)).1 (by decide)⟩,
   ⟨by decide, (C9_grow_failure_atomic DataStack_new (by decide)).2 true (by decide)⟩⟩

/-! ## C10: temporary `f_lineno` override in `CTracer_call` -/

/-- C10: invoking the tracer through its Python-callable interface with a
positive `lineno` keyword argument handles the event as if the frame's
`f_lineno` were `lineno` (both the resulting tracer state and the reported
status are those of `CTracer_trace` on the overwritten frame), and the
frame's `f_lineno` is restored to its original value before the call
returns, whether the underlying trace handling succeeds or fails. -/
theorem C10_lineno_override_restored (s : CTracer) (env : Env) (fr : Frame)
    (what : What) (lineno : Int) (h : 0 < lineno) :
    (CTracer_call s env fr what lineno).2.1.f_lineno = fr.f_lineno
    ∧ (CTracer_call s env fr what lineno).1
        = (CTracer_trace s env { fr with f_lineno := lineno } what).1
    ∧ (CTracer_call s env fr what lineno).2.2
        = (CTracer_trace s env { fr with f_lineno := lineno } what).2 := by
  unfold CTracer_call
  rw [if_pos h]
  exact ⟨rfl, rfl, rfl⟩

theorem C10_lineno_override_restored_witness :
    (0 : Int) < 7
    ∧ ((CTracer_call (initTracer false) (natEnv 0) (sFrame 0 1 3 0) .line 7).2.1.f_lineno
        = (sFrame 0 1 3 0).f_lineno
      ∧ (CTracer_call (initTracer false) (natEnv 0) (sFrame 0 1 3 0) .line 7).1
          = (CTracer_trace (initTracer false) (natEnv 0) { sFrame 0 1 3 0 with f_lineno := 7 } .line).1
      ∧ (CTracer_call (initTracer false) (natEnv 0) (sFrame 0 1 3 0) .line 7).2.2
          = (CTracer_trace (initTracer false) (natEnv 0) { sFrame 0 1 3 0 with f_lineno := 7 } .line).2) :=
  ⟨by decide,
   C10_lineno_override_restored (initTracer false) (natEnv 0) (sFrame 0 1 3 0) .line 7 (by decide)⟩

/-! ## C7: a mapper line value of -1 suppresses recording -/

/-- C7: for a line event in a traced frame whose attached line mapper
returns a range starting with `-1`, `CTracer_handle_line` records nothing
(the whole tracer state, including every file's data collection and
`cur_entry.last_line`, is left unchanged) and reports success. -/
theorem C7_mapper_minus_one_suppresses (s : CTracer) (env : Env) (fr : Frame)
    (fd pt : Nat) (t : Int)
    (hdepth : (getStack s).depth ≥ 0)
    (hfd : s.cur_entry.file_data = some fd)
    (hft : s.cur_entry.file_tracer = some pt)
    (hrange : env.range_result = .returns (-1) t) :
    CTracer_handle_line s env fr = (s, true) := by
  unfold CTracer_handle_line
  rw [if_pos hdepth, hfd, hft, hrange]
  simp

theorem C7_mapper_minus_one_suppresses_witness :
    ((getStack mappedState).depth ≥ 0
      ∧ mappedState.cur_entry.file_data = some 0
      ∧ mappedState.cur_entry.file_tracer = some 3
      ∧ (rangeEnv (-1) 9).range_result = .returns (-1) 9)
    ∧ CTracer_handle_line mappedState (rangeEnv (-1) 9) (sFrame 0 1 4 0)
        = (mappedState, true) :=
  ⟨⟨by decide, by decide, by decide, by decide⟩,
   C7_mapper_minus_one_suppresses mappedState (rangeEnv (-1) 9) (sFrame 0 1 4 0)
     0 3 9 (by decide) (by decide) (by decide) (by decide)⟩

/-! ## C6: the `last_line` value set by a call event -/

/-- C6: the source hunk cited by the claim (tracer.c lines 617-626) is an
unresolved merge conflict.  Under the "other" hunk — whose own comment
documents the claimed behaviour, and which is the resolution the upstream
project shipped — a generator re-entry call event (here `f_lasti = 10`,
`f_lineno = 42`) leaves `cur_entry.last_line = 42` and a true call
(`f_lasti = -1`) leaves `-1`, exactly as the claim states; under the
"local" hunk (`CTracer_handle_call_local`) the same generator re-entry
leaves `last_line = -1`, contradicting the claim and the code's comment. -/
theorem C6_call_last_line_conflict :
    ((CTracer_handle_call (initTracer true) (natEnv 0) (sFrame 0 1 42 10)).1.cur_entry.last_line = 42)
    ∧ ((CTracer_handle_call (initTracer true) (natEnv 0) (sFrame 0 1 1 (-1))).1.cur_entry.last_line = -1)
    ∧ ((CTracer_handle_call_local (initTracer true) (natEnv 0) (sFrame 0 1 42 10)).1.cur_entry.last_line = -1)
    ∧ ((CTracer_handle_call_local (initTracer true) (natEnv 0) (sFrame 0 1 1 (-1))).1.cur_entry.last_line = -1) := by
  refine ⟨?_, ?_, ?_, ?_⟩ <;> decide

/-! ## Recording-loop characterization -/

theorem lineRecs_cons (b : Bool) (prev l : Int) (L : List Int) :
    lineRecs b prev (l :: L) = recKey b prev l :: lineRecs b l L := by
  cases b <;> simp [lineRecs, recKey, consecArcs]

theorem upd_upd_same {α : Type} (f : Nat → α) (k : Nat) (v w : α) :
    upd (upd f k v) k w = upd f k w := by
  funext x
  by_cases hx : x = k
  · subst hx; simp
  · rw [upd_ne _ _ _ _ hx, upd_ne _ _ _ _ hx, upd_ne _ _ _ _ hx]

theorem recordOne_explicit (s : CTracer) (fd : Nat) (d : List TKey) (l : Int)
    (hfd : s.cur_entry.file_data = some fd) (hdata : s.data fd = some d) :
    recordOne s l =
      { s with data := upd s.data fd (some (d ++ [recKey s.tracing_arcs s.cur_entry.last_line l])),
               cur_entry := { s.cur_entry with last_line := l } } := by
  cases harcs : s.tracing_arcs with
  | true =>
    simp only [recordOne, CTracer_record_pair, CTracer_record_key, harcs, hfd, hdata,
               Option.getD_some, recKey]
  | false =>
    simp only [recordOne, CTracer_record_key, harcs, hfd, hdata, Option.getD_some, recKey]

/-- A line event in a natively traced frame (no file tracer) on a non-empty
stack, at a line other than `-1`, performs exactly one iteration of the
recording loop. -/
theorem handle_line_native (s : CTracer) (env : Env) (fr : Frame) (fd : Nat)
    (hdepth : (getStack s).depth ≥ 0) (hfd : s.cur_entry.file_data = some fd)
    (hft : s.cur_entry.file_tracer = none) (hl : fr.f_lineno ≠ -1) :
    CTracer_handle_line s env fr = (recordOne s fr.f_lineno, true) := by
  unfold CTracer_handle_line
  rw [if_pos hdepth]
  simp only [hfd, hft]
  rw [if_pos hl]
  have h1 : (fr.f_lineno + 1 - fr.f_lineno).toNat = 1 := by omega
  rw [h1]
  rfl

/-- Folding the line events of a straight-line body `L` over a state whose
current frame is natively traced in file `fn` appends `lineRecs` to that
file's data and moves `last_line` to the last element of `L`; nothing else
changes. -/
theorem run_lines (env : Env) (fn : Nat) (first : Int) :
    ∀ (L : List Int) (s : CTracer) (d : List TKey),
      s.last_exc_back = none →
      (getStack s).depth ≥ 0 →
      s.cur_entry.file_data = some fn →
      s.cur_entry.file_tracer = none →
      s.data fn = some d →
      (∀ l ∈ L, l ≠ -1) →
      runEvents s env (L.map fun l => (What.line, sFrame fn first l 0)) =
        ({ s with
            data := upd s.data fn (some (d ++ lineRecs s.tracing_arcs s.cur_entry.last_line L)),
            cur_entry := { s.cur_entry with last_line := lastOr L s.cur_entry.last_line } }, true) := by
  intro L
  induction L with
  | nil =>
    intro s d hexc hdepth hfd hft hdata hL
    have hupd : upd s.data fn (some (d ++ lineRecs s.tracing_arcs s.cur_entry.last_line [])) = s.data := by
      funext x
      by_cases hx : x = fn
      · subst hx
        rw [upd_same, hdata]
        cases s.tracing_arcs <;> simp [lineRecs, consecArcs]
      · exact upd_ne _ _ _ _ hx
    simp only [List.map_nil, runEvents]
    rw [Prod.mk.injEq]
    refine ⟨?_, rfl⟩
    apply CTracer.ext <;> try rfl
    exact hupd.symm
  | cons l L ih =>
    intro s d hexc hdepth hfd hft hdata hL
    have hl : (sFrame fn first l 0).f_lineno ≠ -1 := hL l (List.mem_cons_self l L)
    have hstep : CTracer_trace s env (sFrame fn first l 0) .line = (recordOne s l, true) := by
      rw [trace_line_of_none s env _ hexc]
      exact handle_line_native s env _ fn hdepth hfd hft hl
    simp only [List.map_cons, runEvents, hstep]
    rw [recordOne_explicit s fn d l hfd hdata]
    have hih := ih ({ s with
        data := upd s.data fn (some (d ++ [recKey s.tracing_arcs s.cur_entry.last_line l])),
        cur_entry := { s.cur_entry with last_line := l } })
      (d ++ [recKey s.tracing_arcs s.cur_entry.last_line l]) hexc hdepth hfd hft
      (upd_same _ _ _) (fun x hx => hL x (List.mem_cons_of_mem l hx))
    refine hih.trans ?_
    rw [Prod.mk.injEq]
    refine ⟨?_, rfl⟩
    apply CTracer.ext <;> try rfl
    show upd (upd s.data fn (some (d ++ [recKey s.tracing_arcs s.cur_entry.last_line l]))) fn
          (some ((d ++ [recKey s.tracing_arcs s.cur_entry.last_line l]) ++ lineRecs s.tracing_arcs l L))
        = upd s.data fn (some (d ++ lineRecs s.tracing_arcs s.cur_entry.last_line (l :: L)))
    rw [upd_upd_same, lineRecs_cons, List.append_cons d
        (recKey s.tracing_arcs s.cur_entry.last_line l) (lineRecs s.tracing_arcs l L)]

theorem call_step (arcs : Bool) (fn : Nat) (first l0 : Int) :
    CTracer_trace (initTracer arcs) (natEnv fn) (sFrame fn first l0 (-1)) .call =
      (afterCallState arcs fn, true) := rfl

/-- A return event on the main stack with no concurrency function, in
non-arc mode, never touches the per-file data and succeeds. -/
theorem handle_return_data_nonarc (s : CTracer) (env : Env) (fr : Frame)
    (harcs : s.tracing_arcs = false) (hc : env.concur_id = none) :
    ∃ s1, CTracer_handle_return s env fr = (s1, true) ∧ s1.data = s.data := by
  unfold CTracer_handle_return
  rw [hc]
  simp only [CTracer_set_pdata_stack, getStack, putStack, harcs]
  split
  · exact ⟨_, rfl, rfl⟩
  · exact ⟨_, rfl, rfl⟩

/-- A return event on the main stack with no concurrency function, in arc
mode in a traced frame at a non-yield instruction, appends exactly the exit
arc `(last_line, -co_firstlineno)` to the frame's file data and succeeds. -/
theorem handle_return_data_arc (s : CTracer) (env : Env) (fr : Frame) (fd : Nat)
    (harcs : s.tracing_arcs = true) (hc : env.concur_id = none)
    (hd : s.data_stack.depth ≥ 0)
    (hfd : s.cur_entry.file_data = some fd)
    (hyield : fr.f_code_yield_at_lasti = false) :
    ∃ s1, CTracer_handle_return s env fr = (s1, true)
      ∧ s1.data = upd s.data fd (some ((s.data fd).getD []
          ++ [TKey.arc s.cur_entry.last_line (-fr.f_code_firstlineno)])) := by
  unfold CTracer_handle_return
  rw [hc]
  simp only [CTracer_set_pdata_stack, getStack, putStack, harcs, hfd, hyield,
             CTracer_record_pair, CTracer_record_key]
  rw [if_pos hd]
  exact ⟨_, rfl, rfl⟩

theorem straight_run (arcs : Bool) (fn : Nat) (first : Int) (L : List Int)
    (hL : ∀ l ∈ L, 1 ≤ l) :
    ∃ s1, runEvents (initTracer arcs) (natEnv fn) (straightEvents fn first L) = (s1, true)
      ∧ s1.data = (CTracer_handle_return (afterLinesState arcs fn L) (natEnv fn)
            (sFrame fn first (lastOr L first) 20)).1.data
      ∧ CTracer_handle_return (afterLinesState arcs fn L) (natEnv fn)
            (sFrame fn first (lastOr L first) 20)
          = ((CTracer_handle_return (afterLinesState arcs fn L) (natEnv fn)
            (sFrame fn first (lastOr L first) 20)).1, true) := by
  have hL' : ∀ l ∈ L, l ≠ (-1 : Int) := by
    intro l hl
    have := hL l hl
    omega
  have hlines := run_lines (natEnv fn) fn first L (afterCallState arcs fn) []
      rfl (le_refl 0) rfl rfl (by simp [afterCallState]) hL'
  have hlines2 : runEvents (afterCallState arcs fn) (natEnv fn)
      (L.map fun l => (What.line, sFrame fn first l 0)) = (afterLinesState arcs fn L, true) :=
    hlines
  have hretp : ∃ s1, CTracer_handle_return (afterLinesState arcs fn L) (natEnv fn)
      (sFrame fn first (lastOr L first) 20) = (s1, true) := by
    cases harcs : arcs with
    | false =>
      obtain ⟨s1, h1, _⟩ := handle_return_data_nonarc (afterLinesState false fn L) (natEnv fn)
        (sFrame fn first (lastOr L first) 20) rfl rfl
      exact ⟨s1, h1⟩
    | true =>
      obtain ⟨s1, h1, _⟩ := handle_return_data_arc (afterLinesState true fn L) (natEnv fn)
        (sFrame fn first (lastOr L first) 20) fn rfl rfl (le_refl 0) rfl rfl
      exact ⟨s1, h1⟩
  obtain ⟨s1, hret⟩ := hretp
  refine ⟨s1, ?_, ?_, ?_⟩
  · have h1 : runEvents (initTracer arcs) (natEnv fn) (straightEvents fn first L)
        = runEvents (afterCallState arcs fn) (natEnv fn)
            ((L.map fun l => (What.line, sFrame fn first l 0))
              ++ [(What.ret, sFrame fn first (lastOr L first) 20)]) := by
      simp only [straightEvents, runEvents, call_step, List.append_eq]
    rw [h1, runEvents_append_of_ok (natEnv fn) _ _ _ _ hlines2]
    simp only [runEvents]
    rw [trace_ret_of_none _ _ _ rfl, hret]
  · rw [hret]
  · rw [hret]

/-! ## C1: straight-line line recording (non-arc mode) -/

/-- C1: for every event sequence of a single-threaded straight-line function
with body lines `L` executed once (call, one line event per line, return),
with arc tracing disabled and the frame traced natively, the keys recorded
in that file's data collection are exactly the lines of `L` (as a list, in
execution order, hence also as a set). -/
theorem C1_straight_line_line_set (fn : Nat) (first : Int) (L : List Int)
    (hL : ∀ l ∈ L, 1 ≤ l) :
    fileKeys (runEvents (initTracer false) (natEnv fn) (straightEvents fn first L)).1 fn
      = L.map TKey.line
    ∧ (∀ k, k ∈ fileKeys (runEvents (initTracer false) (natEnv fn) (straightEvents fn first L)).1 fn
        ↔ k ∈ L.map TKey.line) := by
  obtain ⟨s1, hrun, hdata, _⟩ := straight_run false fn first L hL
  obtain ⟨s2, hr2, hd2⟩ := handle_return_data_nonarc (afterLinesState false fn L) (natEnv fn)
      (sFrame fn first (lastOr L first) 20) rfl rfl
  have hkeys : fileKeys (runEvents (initTracer false) (natEnv fn) (straightEvents fn first L)).1 fn
      = L.map TKey.line := by
    rw [hrun]
    show (s1.data fn).getD [] = L.map TKey.line
    rw [hdata, hr2]
    show (s2.data fn).getD [] = L.map TKey.line
    rw [hd2]
    show ((afterLinesState false fn L).data fn).getD [] = L.map TKey.line
    simp [afterLinesState, lineRecs]
  exact ⟨hkeys, fun k => by rw [hkeys]⟩

theorem C1_straight_line_line_set_witness :
    (∀ l ∈ [(2 : Int), 3, 6], 1 ≤ l)
    ∧ (fileKeys (runEvents (initTracer false) (natEnv 0) (straightEvents 0 2 [2, 3, 6])).1 0
        = [TKey.line 2, TKey.line 3, TKey.line 6]
      ∧ (∀ k, k ∈ fileKeys (runEvents (initTracer false) (natEnv 0) (straightEvents 0 2 [2, 3, 6])).1 0
          ↔ k ∈ [(2 : Int), 3, 6].map TKey.line)) :=
  ⟨by decide, C1_straight_line_line_set 0 2 [2, 3, 6] (by decide)⟩

/-! ## C2: straight-line arc recording (arc mode) -/

/-- C2 (amended): for every such sequence in arc mode, the recorded arc set
is the entry arc `(-1, L1)` together with the consecutive pairs
`(L1,L2), ..., (L(n-1),Ln)` and the exit arc `(Ln, -firstLine)`.  The claim
as frozen omits the entry arc `(-1, L1)`, which the engine always records
for the first line event of the frame (`last_line` is `-1` after a true
call). -/
theorem C2_amended_arc_set (fn : Nat) (first L1 : Int) (L : List Int)
    (hL : ∀ l ∈ L1 :: L, 1 ≤ l) :
    fileKeys (runEvents (initTracer true) (natEnv fn) (straightEvents fn first (L1 :: L))).1 fn
      = TKey.arc (-1) L1 :: (consecArcs L1 L ++ [TKey.arc (lastOr L L1) (-first)])
    ∧ (∀ k, k ∈ fileKeys (runEvents (initTracer true) (natEnv fn) (straightEvents fn first (L1 :: L))).1 fn
        ↔ (k = TKey.arc (-1) L1 ∨ k ∈ consecArcs L1 L ++ [TKey.arc (lastOr L L1) (-first)])) := by
  obtain ⟨s1, hrun, hdata, _⟩ := straight_run true fn first (L1 :: L) hL
  obtain ⟨s2, hr2, hd2⟩ := handle_return_data_arc (afterLinesState true fn (L1 :: L)) (natEnv fn)
      (sFrame fn first (lastOr (L1 :: L) first) 20) fn rfl rfl (le_refl 0) rfl rfl
  have hkeys : fileKeys (runEvents (initTracer true) (natEnv fn) (straightEvents fn first (L1 :: L))).1 fn
      = TKey.arc (-1) L1 :: (consecArcs L1 L ++ [TKey.arc (lastOr L L1) (-first)]) := by
    rw [hrun]
    show (s1.data fn).getD [] = _
    rw [hdata, hr2]
    show (s2.data fn).getD [] = _
    rw [hd2, upd_same, Option.getD_some]
    show ((afterLinesState true fn (L1 :: L)).data fn).getD []
        ++ [TKey.arc (lastOr L L1) (-first)] = _
    have hdf : (afterLinesState true fn (L1 :: L)).data fn
        = some (lineRecs true (-1) (L1 :: L)) := by
      simp [afterLinesState]
    rw [hdf, Option.getD_some]
    rfl
  refine ⟨hkeys, fun k => ?_⟩
  rw [hkeys]
  exact List.mem_cons

/-- C2 (counterexample to the claim as frozen): for the one-line body
`L = [5]` with `firstLine = 3`, the claimed arc set is exactly
`{(5, -3)}`, but the engine also records the entry arc `(-1, 5)`, so the
recorded set differs from the claimed one. -/
theorem C2_claimed_set_counterexample :
    TKey.arc (-1) 5 ∈ fileKeys (runEvents (initTracer true) (natEnv 0) (straightEvents 0 3 [5])).1 0
    ∧ TKey.arc (-1) 5 ∉ [TKey.arc 5 (-3)]
    ∧ fileKeys (runEvents (initTracer true) (natEnv 0) (straightEvents 0 3 [5])).1 0
        ≠ [TKey.arc 5 (-3)] := by
  refine ⟨?_, ?_, ?_⟩ <;> decide

theorem C2_amended_arc_set_witness :
    (∀ l ∈ [(5 : Int), 6], 1 ≤ l)
    ∧ (fileKeys (runEvents (initTracer true) (natEnv 0) (straightEvents 0 3 [5, 6])).1 0
        = TKey.arc (-1) 5 :: (consecArcs 5 [6] ++ [TKey.arc (lastOr [6] 5) (-3)])
      ∧ (∀ k, k ∈ fileKeys (runEvents (initTracer true) (natEnv 0) (straightEvents 0 3 [5, 6])).1 0
          ↔ (k = TKey.arc (-1) 5 ∨ k ∈ consecArcs 5 [6] ++ [TKey.arc (lastOr [6] 5) (-3)]))) :=
  ⟨by decide, C2_amended_arc_set 0 3 5 [6] (by decide)⟩

/-! ## C3: a mapper range in arc mode -/

theorem lastOr_chainList : ∀ (n : Nat) (i x : Int), lastOr (chainList i (n + 1)) x = i + n := by
  intro n
  induction n with
  | zero =>
    intro i x
    simp [chainList, lastOr]
  | succ n ih =>
    intro i x
    show lastOr (chainList (i + 1) (n + 1)) i = i + (n + 1 : Nat)
    rw [ih (i + 1) i]
    push_cast
    ring

/-- A line event through an attached mapper returning the well-formed range
`(lo, hi)` with `lo ≠ -1` runs the recording loop over the whole range. -/
theorem handle_line_mapped (s : CTracer) (env : Env) (fr : Frame) (fd pt : Nat) (lo hi : Int)
    (hdepth : (getStack s).depth ≥ 0) (hfd : s.cur_entry.file_data = some fd)
    (hft : s.cur_entry.file_tracer = some pt) (hrange : env.range_result = .returns lo hi)
    (hlo : lo ≠ -1) :
    CTracer_handle_line s env fr = (recordLoop s (hi + 1 - lo).toNat lo, true) := by
  unfold CTracer_handle_line
  rw [if_pos hdepth]
  simp only [hfd, hft, hrange]
  rw [if_pos hlo]

/-- The recording loop appends `lineRecs` over the visited chain and leaves
`last_line` at the last visited line; nothing else changes. -/
theorem recordLoop_explicit (fd : Nat) :
    ∀ (n : Nat) (i : Int) (s : CTracer) (d : List TKey),
      s.cur_entry.file_data = some fd →
      s.data fd = some d →
      recordLoop s n i =
        { s with
            data := upd s.data fd (some (d ++ lineRecs s.tracing_arcs s.cur_entry.last_line (chainList i n))),
            cur_entry := { s.cur_entry with last_line := lastOr (chainList i n) s.cur_entry.last_line } } := by
  intro n
  induction n with
  | zero =>
    intro i s d hfd hdata
    have hupd : upd s.data fd (some (d ++ lineRecs s.tracing_arcs s.cur_entry.last_line (chainList i 0))) = s.data := by
      funext x
      by_cases hx : x = fd
      · subst hx
        rw [upd_same, hdata]
        cases s.tracing_arcs <;> simp [lineRecs, chainList, consecArcs]
      · exact upd_ne _ _ _ _ hx
    show s = _
    apply CTracer.ext <;> try rfl
    exact hupd.symm
  | succ n ih =>
    intro i s d hfd hdata
    show recordLoop (recordOne s i) n (i + 1) = _
    rw [recordOne_explicit s fd d i hfd hdata]
    have hih := ih (i + 1) ({ s with
        data := upd s.data fd (some (d ++ [recKey s.tracing_arcs s.cur_entry.last_line i])),
        cur_entry := { s.cur_entry with last_line := i } })
      (d ++ [recKey s.tracing_arcs s.cur_entry.last_line i]) hfd (upd_same _ _ _)
    refine hih.trans ?_
    apply CTracer.ext <;> try rfl
    show upd (upd s.data fd (some (d ++ [recKey s.tracing_arcs s.cur_entry.last_line i]))) fd
          (some ((d ++ [recKey s.tracing_arcs s.cur_entry.last_line i])
            ++ lineRecs s.tracing_arcs i (chainList (i + 1) n)))
        = upd s.data fd (some (d ++ lineRecs s.tracing_arcs s.cur_entry.last_line (chainList i (n + 1))))
    rw [upd_upd_same]
    show _ = upd s.data fd (some (d ++ lineRecs s.tracing_arcs s.cur_entry.last_line
        (i :: chainList (i + 1) n)))
    rw [lineRecs_cons, List.append_cons d (recKey s.tracing_arcs s.cur_entry.last_line i)
        (lineRecs s.tracing_arcs i (chainList (i + 1) n))]

/-- C3 (amended): for a line event whose mapper returns a range `[lo, hi]`
with `lo < hi`, in arc mode the engine records one arc per line of the
range — `(lastLine, lo), (lo, lo+1), ..., (hi-1, hi)` — updating `lastLine`
at each loop iteration so that it ends at `hi`, the range end.  (The frozen
claim says a single transition `(lastLine, lo)` is recorded and `lastLine`
updated once; the loop at tracer.c lines 773-795 encloses the arc-recording
branch, so every intermediate line produces an arc.) -/
theorem C3_amended_range_arcs (s : CTracer) (env : Env) (fr : Frame) (fd pt : Nat)
    (lo hi : Int) (d : List TKey)
    (hdepth : (getStack s).depth ≥ 0) (hfd : s.cur_entry.file_data = some fd)
    (hft : s.cur_entry.file_tracer = some pt) (harcs : s.tracing_arcs = true)
    (hdata : s.data fd = some d)
    (hrange : env.range_result = .returns lo hi) (hlo : lo ≠ -1) (hlt : lo < hi) :
    (CTracer_handle_line s env fr).2 = true
    ∧ (CTracer_handle_line s env fr).1.data fd
        = some (d ++ consecArcs s.cur_entry.last_line (intRange lo hi))
    ∧ (CTracer_handle_line s env fr).1.cur_entry.last_line = hi := by
  rw [handle_line_mapped s env fr fd pt lo hi hdepth hfd hft hrange hlo]
  rw [recordLoop_explicit fd _ lo s d hfd hdata]
  refine ⟨rfl, ?_, ?_⟩
  · show upd s.data fd (some (d ++ lineRecs s.tracing_arcs s.cur_entry.last_line
        (chainList lo (hi + 1 - lo).toNat))) fd
      = some (d ++ consecArcs s.cur_entry.last_line (intRange lo hi))
    rw [upd_same, harcs]
    rfl
  · show lastOr (chainList lo (hi + 1 - lo).toNat) s.cur_entry.last_line = hi
    have hn : (hi + 1 - lo).toNat = (hi - lo).toNat + 1 := by omega
    rw [hn, lastOr_chainList]
    omega

theorem C3_amended_range_arcs_witness :
    ((getStack mappedState).depth ≥ 0
      ∧ mappedState.cur_entry.file_data = some 0
      ∧ mappedState.cur_entry.file_tracer = some 3
      ∧ mappedState.tracing_arcs = true
      ∧ mappedState.data 0 = some []
      ∧ (rangeEnv 1 3).range_result = .returns 1 3
      ∧ (1 : Int) ≠ -1 ∧ (1 : Int) < 3)
    ∧ ((CTracer_handle_line mappedState (rangeEnv 1 3) (sFrame 0 1 1 0)).2 = true
      ∧ (CTracer_handle_line mappedState (rangeEnv 1 3) (sFrame 0 1 1 0)).1.data 0
          = some ([] ++ consecArcs mappedState.cur_entry.last_line (intRange 1 3))
      ∧ (CTracer_handle_line mappedState (rangeEnv 1 3) (sFrame 0 1 1 0)).1.cur_entry.last_line = 3) :=
  ⟨⟨by decide, by decide, by decide, by decide, by decide, by decide, by decide, by decide⟩,
   C3_amended_range_arcs mappedState (rangeEnv 1 3) (sFrame 0 1 1 0) 0 3 1 3 []
     (by decide) (by decide) (by decide) (by decide) (by decide) (by decide) (by decide) (by decide)⟩

/-- C3 (counterexample to the claim as frozen): with `lastLine = 5` and a
mapper range `(1, 3)` in arc mode, the engine records three arcs
`(5,1), (1,2), (2,3)` for the one event — not the single transition
`(5,1)` the claim describes. -/
theorem C3_single_transition_counterexample :
    fileKeys (CTracer_handle_line mappedState (rangeEnv 1 3) (sFrame 0 1 1 0)).1 0
      = [TKey.arc 5 1, TKey.arc 1 2, TKey.arc 2 3]
    ∧ fileKeys (CTracer_handle_line mappedState (rangeEnv 1 3) (sFrame 0 1 1 0)).1 0
        ≠ [TKey.arc 5 1] := by
  refine ⟨?_, ?_⟩ <;> decide

/-! ## C4: missing-return recovery -/

/-- Exact effect of `CTracer_check_missing_return` when the observed frame
matches the remembered parent (main stack, no concurrency function,
non-empty stack): record the exit arc when applicable, pop once, restore
the popped entry as `cur_entry`, and clear the pending exception. -/
theorem check_missing_matched_eq (s : CTracer) (env : Env) (fr : Frame) (b : Nat)
    (hb : s.last_exc_back = some b) (hmatch : fr.fid = b)
    (hc : env.concur_id = none) (hsel : s.pdata_stack = .main)
    (hdepth : s.data_stack.depth ≥ 0) :
    CTracer_check_missing_return s env fr =
      ({ recMR s with
          cur_entry := s.data_stack.stack s.data_stack.depth.toNat,
          data_stack := { s.data_stack with depth := s.data_stack.depth - 1 },
          last_exc_back := none }, true) := by
  have hs1 : { s with pdata_stack := StackSel.main } = s := by
    apply CTracer.ext <;> try rfl
    exact hsel.symm
  unfold CTracer_check_missing_return recMR
  simp only [hb]
  rw [if_pos hmatch]
  simp only [hc, CTracer_set_pdata_stack]
  rw [hs1]
  simp only [getStack, hsel, putStack]
  rw [if_pos hdepth]
  cases harcs : s.tracing_arcs <;> cases hfd : s.cur_entry.file_data <;>
    simp only [harcs, hfd, CTracer_record_pair, CTracer_record_key, putStack, getStack, hsel]

/-- C4: when an exception event's remembered caller frame is observed next
(main stack, no concurrency function, non-empty stack), the engine
synthesizes exactly one suppressed return before dispatching the event: it
pops the stack once (depth drops by one and the popped entry becomes
`cur_entry`), records the exit arc `(lastLine, -rememberedFirstLine)` when
arcs are enabled and the unwound frame was traced (and records nothing when
arcs are disabled), succeeds, and clears the pending-exception state; the
pending-exception state is also cleared when the observed frame does not
match. -/
theorem C4_missing_return_recovery (s : CTracer) (env : Env) (fr fr2 : Frame) (b : Nat)
    (hb : s.last_exc_back = some b) (hmatch : fr.fid = b)
    (hc : env.concur_id = none) (hsel : s.pdata_stack = .main)
    (hdepth : s.data_stack.depth ≥ 0) :
    (CTracer_check_missing_return s env fr).2 = true
    ∧ (CTracer_check_missing_return s env fr).1.data_stack.depth = s.data_stack.depth - 1
    ∧ (CTracer_check_missing_return s env fr).1.cur_entry
        = s.data_stack.stack s.data_stack.depth.toNat
    ∧ (∀ fd, s.tracing_arcs = true → s.cur_entry.file_data = some fd →
        fileKeys (CTracer_check_missing_return s env fr).1 fd
          = fileKeys s fd ++ [TKey.arc s.cur_entry.last_line (-s.last_exc_firstlineno)])
    ∧ (s.tracing_arcs = false → (CTracer_check_missing_return s env fr).1.data = s.data)
    ∧ (CTracer_check_missing_return s env fr).1.last_exc_back = none
    ∧ (CTracer_check_missing_return s env fr2).1.last_exc_back = none := by
  have heq := check_missing_matched_eq s env fr b hb hmatch hc hsel hdepth
  have hclear : ∀ g : Frame, (CTracer_check_missing_return s env g).1.last_exc_back = none := by
    intro g
    unfold CTracer_check_missing_return
    simp only [hb]
    by_cases hg : g.fid = b
    · rw [if_pos hg]
    · rw [if_neg hg]
  refine ⟨?_, ?_, ?_, ?_, ?_, hclear fr, hclear fr2⟩
  · rw [heq]
  · rw [heq]
  · rw [heq]
  · intro fd harcs hfd
    rw [heq]
    show ((recMR s).data fd).getD []
        = fileKeys s fd ++ [TKey.arc s.cur_entry.last_line (-s.last_exc_firstlineno)]
    unfold recMR
    simp only [harcs, hfd, CTracer_record_pair, CTracer_record_key]
    rw [upd_same]
    rfl
  · intro harcs
    rw [heq]
    show (recMR s).data = s.data
    unfold recMR
    simp only [harcs]

theorem C4_missing_return_recovery_witness :
    (excState.last_exc_back = some 1
      ∧ excFrame.fid = 1
      ∧ (natEnv 0).concur_id = none
      ∧ excState.pdata_stack = .main
      ∧ excState.data_stack.depth ≥ 0)
    ∧ ((CTracer_check_missing_return excState (natEnv 0) excFrame).2 = true
      ∧ (CTracer_check_missing_return excState (natEnv 0) excFrame).1.data_stack.depth
          = excState.data_stack.depth - 1
      ∧ (CTracer_check_missing_return excState (natEnv 0) excFrame).1.cur_entry
          = excState.data_stack.stack excState.data_stack.depth.toNat
      ∧ (∀ fd, excState.tracing_arcs = true → excState.cur_entry.file_data = some fd →
          fileKeys (CTracer_check_missing_return excState (natEnv 0) excFrame).1 fd
            = fileKeys excState fd
              ++ [TKey.arc excState.cur_entry.last_line (-excState.last_exc_firstlineno)])
      ∧ (excState.tracing_arcs = false →
          (CTracer_check_missing_return excState (natEnv 0) excFrame).1.data = excState.data)
      ∧ (CTracer_check_missing_return excState (natEnv 0) excFrame).1.last_exc_back = none
      ∧ (CTracer_check_missing_return excState (natEnv 0) (sFrame 0 1 1 0)).1.last_exc_back = none) :=
  ⟨⟨by decide, by decide, by decide, by decide, by decide⟩,
   C4_missing_return_recovery excState (natEnv 0) excFrame (sFrame 0 1 1 0) 1
     (by decide) (by decide) (by decide) (by decide) (by decide)⟩

/-! ## C5: when the concurrency identity is recomputed -/

theorem putStack_resShape (s : CTracer) (ds : DataStack) :
    resShape (putStack s ds) = resShape s := by
  unfold putStack
  split <;> rfl

theorem record_key_resShape (s : CTracer) (k : TKey) :
    resShape (CTracer_record_key s k) = resShape s := by
  unfold CTracer_record_key
  split <;> rfl

theorem disable_plugin_resShape (s : CTracer) (d : Nat) :
    resShape (CTracer_disable_plugin s d) = resShape s := by
  unfold CTracer_disable_plugin
  split <;> rfl

theorem finish_resShape (s : CTracer) (fr : Frame) (d : Nat) (ft tn : Option Nat)
    (rule : Frame → Int) :
    resShape (CTracer_handle_call_finish s fr d ft tn rule).1 = resShape s := by
  unfold CTracer_handle_call_finish
  simp only []
  repeat' split
  all_goals rfl

theorem rest_resShape (s : CTracer) (env : Env) (fr : Frame) (d : Nat) (rule : Frame → Int) :
    resShape (CTracer_handle_call_rest s env fr d rule).1 = resShape s := by
  unfold CTracer_handle_call_rest
  simp only []
  repeat' split
  all_goals first
    | exact finish_resShape ..
    | exact disable_plugin_resShape ..

theorem handle_call_resShape (s : CTracer) (env : Env) (fr : Frame) (rule : Frame → Int) :
    resShape (CTracer_handle_call_aux s env fr rule).1
      = resShape (CTracer_set_pdata_stack s env.concur_id) := by
  unfold CTracer_handle_call_aux
  simp only []
  repeat' split
  all_goals first
    | exact putStack_resShape ..
    | exact (rest_resShape ..).trans (putStack_resShape ..)

theorem handle_return_resShape (s : CTracer) (env : Env) (fr : Frame) :
    resShape (CTracer_handle_return s env fr).1
      = resShape (CTracer_set_pdata_stack s env.concur_id) := by
  unfold CTracer_handle_return CTracer_record_pair
  simp only []
  repeat' split
  all_goals first
    | exact (putStack_resShape ..).trans (record_key_resShape ..)
    | exact putStack_resShape ..
    | rfl

theorem recordLoop_resShape : ∀ (n : Nat) (i : Int) (s : CTracer),
    resShape (recordLoop s n i) = resShape s := by
  intro n
  induction n with
  | zero => intro i s; rfl
  | succ n ih =>
    intro i s
    show resShape (recordLoop (recordOne s i) n (i + 1)) = resShape s
    rw [ih]
    unfold recordOne CTracer_record_pair
    repeat' split
    all_goals exact record_key_resShape ..

theorem handle_line_resShape (s : CTracer) (env : Env) (fr : Frame) :
    resShape (CTracer_handle_line s env fr).1 = resShape s := by
  unfold CTracer_handle_line
  simp only []
  repeat' split
  all_goals first
    | exact recordLoop_resShape ..
    | exact disable_plugin_resShape ..
    | rfl

theorem set_pdata_stack_calls (s : CTracer) (c : Nat) :
    (CTracer_set_pdata_stack s (some c)).concur_calls = s.concur_calls + 1 := by
  unfold CTracer_set_pdata_stack
  cases h : s.data_stack_index c <;> simp [h]

theorem check_missing_matched_resShape (s : CTracer) (env : Env) (fr : Frame) (b : Nat)
    (hb : s.last_exc_back = some b) (hmatch : fr.fid = b) :
    resShape (CTracer_check_missing_return s env fr).1
      = resShape (CTracer_set_pdata_stack s env.concur_id) := by
  unfold CTracer_check_missing_return CTracer_record_pair
  simp only [hb]
  rw [if_pos hmatch]
  simp only []
  repeat' split
  all_goals first
    | exact (putStack_resShape ..).trans (record_key_resShape ..)
    | exact putStack_resShape ..
    | rfl

/-- C5 (amended): when a concurrency identity function is configured, call
and return events (and a matched missing-return recovery) invoke it exactly
once more, on entry to stack resolution, and leave the active stack exactly
as the fresh resolution chose it (nothing later in the handler changes the
selection); a line event, however, performs no resolution at all: it invokes
the identity function zero times and leaves the previously resolved stack
selection untouched.  (The frozen claim says every traced event, line events
included, re-resolves; `CTracer_handle_line` never calls
`CTracer_set_pdata_stack`.) -/
theorem C5_amended_identity_recomputed (s : CTracer) (env : Env) (fr : Frame) (c b : Nat)
    (hconf : env.concur_id = some c) :
    ((CTracer_set_pdata_stack s (some c)).concur_calls = s.concur_calls + 1)
    ∧ ((CTracer_handle_call s env fr).1.concur_calls = s.concur_calls + 1)
    ∧ ((CTracer_handle_return s env fr).1.concur_calls = s.concur_calls + 1)
    ∧ ((CTracer_handle_call s env fr).1.pdata_stack
        = (CTracer_set_pdata_stack s (some c)).pdata_stack)
    ∧ ((CTracer_handle_return s env fr).1.pdata_stack
        = (CTracer_set_pdata_stack s (some c)).pdata_stack)
    ∧ (s.last_exc_back = some b → fr.fid = b →
        (CTracer_check_missing_return s env fr).1.concur_calls = s.concur_calls + 1)
    ∧ ((CTracer_handle_line s env fr).1.concur_calls = s.concur_calls)
    ∧ ((CTracer_handle_line s env fr).1.pdata_stack = s.pdata_stack) := by
  have hcallsh := handle_call_resShape s env fr callLastLine
  have hretsh := handle_return_resShape s env fr
  have hlinesh := handle_line_resShape s env fr
  rw [hconf] at hcallsh hretsh
  refine ⟨set_pdata_stack_calls s c, ?_, ?_, ?_, ?_, ?_, ?_, ?_⟩
  · have := congrArg Prod.fst hcallsh
    simp only [resShape] at this
    show (CTracer_handle_call_aux s env fr callLastLine).1.concur_calls = s.concur_calls + 1
    rw [this, set_pdata_stack_calls s c]
  · have := congrArg Prod.fst hretsh
    simp only [resShape] at this
    rw [this, set_pdata_stack_calls s c]
  · exact congrArg Prod.snd hcallsh
  · exact congrArg Prod.snd hretsh
  · intro hb hmatch
    have hsh := check_missing_matched_resShape s env fr b hb hmatch
    rw [hconf] at hsh
    have := congrArg Prod.fst hsh
    simp only [resShape] at this
    rw [this, set_pdata_stack_calls s c]
  · exact congrArg Prod.fst hlinesh
  · exact congrArg Prod.snd hlinesh

/-- C5 (counterexample to the claim as frozen): with a concurrency identity
function configured, a line event is handled — it records line 4 — yet the
engine invokes the identity function zero times and performs no stack
resolution (the active-stack selection and the registry are untouched),
contradicting "for every traced event (call, line, return ... alike) ...
the engine recomputes the concurrency identity ... and resolves the active
FrameStack from the freshly computed identity before handling the event". -/
theorem C5_line_event_skips_resolution_counterexample :
    concEnv.concur_id = some 7
    ∧ (CTracer_handle_line lineState concEnv (sFrame 0 1 4 0)).1.concur_calls = 0
    ∧ (CTracer_handle_line lineState concEnv (sFrame 0 1 4 0)).1.pdata_stack = StackSel.main
    ∧ (CTracer_handle_line lineState concEnv (sFrame 0 1 4 0)).1.data_stacks_used = 0
    ∧ TKey.line 4 ∈ fileKeys (CTracer_handle_line lineState concEnv (sFrame 0 1 4 0)).1 0 := by
  refine ⟨rfl, ?_, ?_, ?_, ?_⟩ <;> decide

theorem C5_amended_identity_recomputed_witness :
    concEnv.concur_id = some 7
    ∧ (((CTracer_set_pdata_stack lineState (some 7)).concur_calls = lineState.concur_calls + 1)
      ∧ ((CTracer_handle_call lineState concEnv (sFrame 0 1 4 0)).1.concur_calls
          = lineState.concur_calls + 1)
      ∧ ((CTracer_handle_return lineState concEnv (sFrame 0 1 4 0)).1.concur_calls
          = lineState.concur_calls + 1)
      ∧ ((CTracer_handle_call lineState concEnv (sFrame 0 1 4 0)).1.pdata_stack
          = (CTracer_set_pdata_stack lineState (some 7)).pdata_stack)
      ∧ ((CTracer_handle_return lineState concEnv (sFrame 0 1 4 0)).1.pdata_stack
          = (CTracer_set_pdata_stack lineState (some 7)).pdata_stack)
      ∧ (lineState.last_exc_back = some 9 → (sFrame 0 1 4 0).fid = 9 →
          (CTracer_check_missing_return lineState concEnv (sFrame 0 1 4 0)).1.concur_calls
            = lineState.concur_calls + 1)
      ∧ ((CTracer_handle_line lineState concEnv (sFrame 0 1 4 0)).1.concur_calls
          = lineState.concur_calls)
      ∧ ((CTracer_handle_line lineState concEnv (sFrame 0 1 4 0)).1.pdata_stack
          = lineState.pdata_stack)) :=
  ⟨rfl, C5_amended_identity_recomputed lineState concEnv (sFrame 0 1 4 0) 7 9 rfl⟩

/-! ## C8: plugin fault handling -/

theorem disable_plugin_effects (s : CTracer) (d p : Nat)
    (hp : (s.disps d).file_tracer = some p) :
    (CTracer_disable_plugin s d).warn_log = s.warn_log ++ [p]
    ∧ (CTracer_disable_plugin s d).plugin_enabled p = false
    ∧ ((CTracer_disable_plugin s d).disps d).trace = false
    ∧ (∀ q, q ≠ p → (CTracer_disable_plugin s d).plugin_enabled q = s.plugin_enabled q)
    ∧ (CTracer_disable_plugin s d).data = s.data := by
  have hd : CTracer_disable_plugin s d =
      { s with
          warn_log := s.warn_log ++ [p],
          plugin_enabled := fun q => if q = p then false else s.plugin_enabled q,
          disps := upd s.disps d { s.disps d with trace := false } } := by
    unfold CTracer_disable_plugin
    rw [hp]
  rw [hd]
  refine ⟨rfl, by simp, ?_, ?_, rfl⟩
  · show (upd s.disps d { s.disps d with trace := false } d).trace = false
    rw [upd_same]
  · intro q hq
    show (if q = p then false else s.plugin_enabled q) = s.plugin_enabled q
    rw [if_neg hq]

theorem grow_ok_of_alloc_ok (ds : DataStack) : (DataStack_grow ds true).2 = true := by
  unfold DataStack_grow
  simp only []
  split <;> rfl

/-- With the disposition for the frame's file already cached (no concurrency
function, allocation succeeding), `CTracer_handle_call` reduces to
`CTracer_handle_call_rest` on a state differing from `s` only in the stack
bookkeeping of the push. -/
theorem aux_cached (s : CTracer) (env : Env) (fr : Frame) (d : Nat) (rule : Frame → Int)
    (hc : env.concur_id = none) (hok : env.alloc_ok = true)
    (hcache : s.should_trace_cache fr.f_code_filename = some (.disp d)) :
    ∃ s1, CTracer_handle_call_aux s env fr rule = CTracer_handle_call_rest s1 env fr d rule
      ∧ s1.should_trace_cache = s.should_trace_cache
      ∧ s1.disps = s.disps
      ∧ s1.warn_log = s.warn_log
      ∧ s1.plugin_enabled = s.plugin_enabled
      ∧ s1.data = s.data
      ∧ s1.plugin_data = s.plugin_data
      ∧ s1.cur_entry = s.cur_entry := by
  unfold CTracer_handle_call_aux
  rw [hc, hok]
  simp only [CTracer_set_pdata_stack, grow_ok_of_alloc_ok, getStack, putStack]
  simp only [hcache]
  exact ⟨_, rfl, rfl, rfl, rfl, rfl, rfl, rfl, rfl⟩

theorem rest_dyn_raise (s : CTracer) (env : Env) (fr : Frame) (d : Nat) (rule : Frame → Int)
    (htrace : (s.disps d).trace = true) (hdynfn : (s.disps d).has_dynamic_filename = true)
    (hdyn : env.dyn_filename = .raises) :
    CTracer_handle_call_rest s env fr d rule = (CTracer_disable_plugin s d, true) := by
  unfold CTracer_handle_call_rest
  simp only [htrace, hdynfn, hdyn]

/-- C8 (amended): the engine applies the warn-once / disable-plugin /
un-trace-disposition / report-success treatment to (a) a raise from a file
tracer's `dynamic_source_filename` during a call event and (b) a
`line_number_range` result that cannot be unpacked as a pair of ints during
a line event; in both cases exactly one warning naming the owning plugin is
emitted, the plugin's enabled flag is cleared (other plugins untouched), the
current disposition's trace flag is cleared, nothing is recorded for the
event, and the handler returns success.  (An exception raised by
`line_number_range` itself, by contrast, propagates as a handler error with
no warning and no disablement — see the counterexample — so the frozen
claim's "every failure raised by ... line_number_range" is too broad.) -/
theorem C8_amended_plugin_fault (sA : CTracer) (envA : Env) (frA : Frame) (dA pA : Nat)
    (sB : CTracer) (envB : Env) (frB : Frame) (dB pB ptB fdB : Nat)
    (hcA : envA.concur_id = none) (hokA : envA.alloc_ok = true)
    (hdynA : envA.dyn_filename = .raises)
    (hcacheA : sA.should_trace_cache frA.f_code_filename = some (.disp dA))
    (htraceA : (sA.disps dA).trace = true)
    (hdynfnA : (sA.disps dA).has_dynamic_filename = true)
    (hpA : (sA.disps dA).file_tracer = some pA)
    (hdepthB : (getStack sB).depth ≥ 0) (hfdB : sB.cur_entry.file_data = some fdB)
    (hftB : sB.cur_entry.file_tracer = some ptB)
    (hrangeB : envB.range_result = .badShape)
    (hdispB : sB.cur_entry.disposition = dB)
    (hpB : (sB.disps dB).file_tracer = some pB) :
    ((CTracer_handle_call sA envA frA).2 = true
      ∧ (CTracer_handle_call sA envA frA).1.warn_log = sA.warn_log ++ [pA]
      ∧ (CTracer_handle_call sA envA frA).1.plugin_enabled pA = false
      ∧ ((CTracer_handle_call sA envA frA).1.disps dA).trace = false
      ∧ (∀ q, q ≠ pA → (CTracer_handle_call sA envA frA).1.plugin_enabled q = sA.plugin_enabled q)
      ∧ (CTracer_handle_call sA envA frA).1.data = sA.data)
    ∧ ((CTracer_handle_line sB envB frB).2 = true
      ∧ (CTracer_handle_line sB envB frB).1.warn_log = sB.warn_log ++ [pB]
      ∧ (CTracer_handle_line sB envB frB).1.plugin_enabled pB = false
      ∧ ((CTracer_handle_line sB envB frB).1.disps dB).trace = false
      ∧ (∀ q, q ≠ pB → (CTracer_handle_line sB envB frB).1.plugin_enabled q = sB.plugin_enabled q)
      ∧ (CTracer_handle_line sB envB frB).1.data = sB.data) := by
  constructor
  · obtain ⟨s1, heq, hcc, hdd, hwl, hpe, hdat, hpd, hce⟩ :=
      aux_cached sA envA frA dA callLastLine hcA hokA hcacheA
    have htr1 : (s1.disps dA).trace = true := by rw [hdd]; exact htraceA
    have hdy1 : (s1.disps dA).has_dynamic_filename = true := by rw [hdd]; exact hdynfnA
    have hp1 : (s1.disps dA).file_tracer = some pA := by rw [hdd]; exact hpA
    have hfin : CTracer_handle_call sA envA frA = (CTracer_disable_plugin s1 dA, true) := by
      show CTracer_handle_call_aux sA envA frA callLastLine = _
      rw [heq, rest_dyn_raise s1 envA frA dA callLastLine htr1 hdy1 hdynA]
    obtain ⟨e1, e2, e3, e4, e5⟩ := disable_plugin_effects s1 dA pA hp1
    rw [hfin]
    refine ⟨rfl, ?_, e2, ?_, ?_, ?_⟩
    · show (CTracer_disable_plugin s1 dA).warn_log = sA.warn_log ++ [pA]
      rw [e1, hwl]
    · show ((CTracer_disable_plugin s1 dA).disps dA).trace = false
      exact e3
    · intro q hq
      show (CTracer_disable_plugin s1 dA).plugin_enabled q = sA.plugin_enabled q
      rw [e4 q hq, hpe]
    · show (CTracer_disable_plugin s1 dA).data = sA.data
      rw [e5, hdat]
  · have hfin : CTracer_handle_line sB envB frB = (CTracer_disable_plugin sB dB, true) := by
      unfold CTracer_handle_line
      rw [if_pos hdepthB]
      simp only [hfdB, hftB, hrangeB, hdispB]
    obtain ⟨e1, e2, e3, e4, e5⟩ := disable_plugin_effects sB dB pB hpB
    rw [hfin]
    exact ⟨rfl, e1, e2, e3, e4, e5⟩

theorem C8_amended_plugin_fault_witness :
    ((natEnv 0).concur_id = none
      ∧ (natEnv 0).alloc_ok = true
      ∧ (natEnv 0).dyn_filename = .raises
      ∧ dynState.should_trace_cache (sFrame 0 1 1 (-1)).f_code_filename = some (.disp 0)
      ∧ (dynState.disps 0).trace = true
      ∧ (dynState.disps 0).has_dynamic_filename = true
      ∧ (dynState.disps 0).file_tracer = some 3
      ∧ (getStack mappedState).depth ≥ 0
      ∧ mappedState.cur_entry.file_data = some 0
      ∧ mappedState.cur_entry.file_tracer = some 3
      ∧ badEnv.range_result = .badShape
      ∧ mappedState.cur_entry.disposition = 0
      ∧ (mappedState.disps 0).file_tracer = some 3)
    ∧ (((CTracer_handle_call dynState (natEnv 0) (sFrame 0 1 1 (-1))).2 = true
      ∧ (CTracer_handle_call dynState (natEnv 0) (sFrame 0 1 1 (-1))).1.warn_log
          = dynState.warn_log ++ [3]
      ∧ (CTracer_handle_call dynState (natEnv 0) (sFrame 0 1 1 (-1))).1.plugin_enabled 3 = false
      ∧ ((CTracer_handle_call dynState (natEnv 0) (sFrame 0 1 1 (-1))).1.disps 0).trace = false
      ∧ (∀ q, q ≠ 3 → (CTracer_handle_call dynState (natEnv 0) (sFrame 0 1 1 (-1))).1.plugin_enabled q
          = dynState.plugin_enabled q)
      ∧ (CTracer_handle_call dynState (natEnv 0) (sFrame 0 1 1 (-1))).1.data = dynState.data)
    ∧ ((CTracer_handle_line mappedState badEnv (sFrame 0 1 4 0)).2 = true
      ∧ (CTracer_handle_line mappedState badEnv (sFrame 0 1 4 0)).1.warn_log
          = mappedState.warn_log ++ [3]
      ∧ (CTracer_handle_line mappedState badEnv (sFrame 0 1 4 0)).1.plugin_enabled 3 = false
      ∧ ((CTracer_handle_line mappedState badEnv (sFrame 0 1 4 0)).1.disps 0).trace = false
      ∧ (∀ q, q ≠ 3 → (CTracer_handle_line mappedState badEnv (sFrame 0 1 4 0)).1.plugin_enabled q
          = mappedState.plugin_enabled q)
      ∧ (CTracer_handle_line mappedState badEnv (sFrame 0 1 4 0)).1.data = mappedState.data)) :=
  ⟨⟨by decide, by decide, by decide, by decide, by decide, by decide, by decide,
    by decide, by decide, by decide, by decide, by decide, by decide⟩,
   C8_amended_plugin_fault dynState (natEnv 0) (sFrame 0 1 1 (-1)) 0 3
     mappedState badEnv (sFrame 0 1 4 0) 0 3 3 0
     (by decide) (by decide) (by decide) (by decide) (by decide) (by decide) (by decide)
     (by decide) (by decide) (by decide) (by decide) (by decide) (by decide)⟩

/-- C8 (counterexample to the claim as frozen): an exception raised by
`line_number_range` itself makes `CTracer_handle_line` report an error
(tracer.c line 759: `goto error`), with no warning emitted, the plugin
still enabled and the disposition still tracing — not the warn-and-disable
treatment the claim promises for every raised failure of that capability. -/
theorem C8_raised_range_counterexample :
    (CTracer_handle_line mappedState (natEnv 0) (sFrame 0 1 4 0)).2 = false
    ∧ (CTracer_handle_line mappedState (natEnv 0) (sFrame 0 1 4 0)).1.warn_log = []
    ∧ (CTracer_handle_line mappedState (natEnv 0) (sFrame 0 1 4 0)).1.plugin_enabled 3 = true
    ∧ ((CTracer_handle_line mappedState (natEnv 0) (sFrame 0 1 4 0)).1.disps 0).trace = true := by
  refine ⟨?_, ?_, ?_, ?_⟩ <;> decide

end CoverageTracer
